import Mathlib

/-!
Verification of the `snakemake_magic` notebook shim
(`prototype/snakemake_magic.py`).

The shim is modelled as pure state-passing code.  The external snakemake
engine (workflow construction, `include`, `execute`, `check`, the
command-line argument parser, `shlex.split`, `parse_resources`,
`snakemake.parser.parse` and `load_configfile`) is an opaque collaborator,
modelled by a record of oracle functions (`Engine`).  File staging is
modelled by an allocator counter in the state: each call to the OS
temp-file allocator yields the name `tempName n` for the current counter
value `n` and bumps the counter; file contents are carried in the event
trace, so an engine call that reads a freshly written file is applied to
the written content.  Every call the shim makes across the engine boundary
(and every temp-file write/unlink) is recorded in an event trace, which is
what the theorems inspect.
-/

/-- The single-quote character, written via its code point. -/
def squote : Char := Char.ofNat 39

/-- Python `\s` whitespace class (space, tab, newline, CR, FF, VT). -/
def isSpaceChar (c : Char) : Bool :=
  c == ' ' || c == '\t' || c == '\n' || c == '\r' || c == '\x0c' || c == '\x0b'

/-- Match a literal list of characters at the head of the input, returning
the rest of the input on success. -/
def matchLit : List Char → List Char → Option (List Char)
  | [], cs => some cs
  | _ :: _, [] => none
  | l :: ls, c :: cs => if c == l then matchLit ls cs else none

/-- The regular expression
`^\s*@workflow.rule\s*\(name=\s*'([^']+)'` from line 23 of the source,
applied with `re.match` to one line of parser output: skip whitespace,
literal `@workflow`, any one character (the regex `.`; parser-output lines
contain no newline), literal `rule`, whitespace, literal `(name=`,
whitespace, a quote, a nonempty run of non-quote characters (the capture
group), and a closing quote.  Returns the capture group. -/
def ruleRexpMatch (line : String) : Option String :=
  match matchLit "@workflow".data (line.data.dropWhile isSpaceChar) with
  | none => none
  | some cs1 =>
    match cs1 with
    | [] => none
    | _ :: cs2 =>
      match matchLit "rule".data cs2 with
      | none => none
      | some cs3 =>
        match matchLit "(name=".data (cs3.dropWhile isSpaceChar) with
        | none => none
        | some cs5 =>
          match cs5.dropWhile isSpaceChar with
          | [] => none
          | q :: cs7 =>
            if q == squote then
              let name := cs7.takeWhile (fun c => c != squote)
              match cs7.dropWhile (fun c => c != squote) with
              | [] => none
              | _ :: _ =>
                if name.isEmpty then none else some (String.mk name)
            else none

/-- A workflow session handle.  The engine owns the rule objects; the shim
only ever touches the keys of `workflow._rules` (an ordered dict from rule
name to rule), so the rule table is modelled by its key list. -/
structure Workflow where
  snakefile : String
  rules : List String
  deriving DecidableEq, Repr

/-- The fields of the argparse result that `SnakemakeMagic.snakemake`
reads (source lines 85-121).  Types follow the snakemake command-line
parser: flags are `Bool`, optional rule/target-name lists are
`Option (List String)`, numeric options are integers, and `--greediness`
(a Python float compared only against 0 and 1) is modelled by `ℚ`. -/
structure Args where
  target : List String
  dryrun : Bool
  printshellcmds : Bool
  reason : Bool
  rulegraph : Bool
  d3dag : Bool
  touch : Bool
  forceall : Bool
  forcerun : Option (List String)
  prioritize : Option (List String)
  until_ : List String
  omit_from : List String
  stats : Option String
  nocolor : Bool
  quiet : Bool
  keep_going : Bool
  allow_ambiguity : Bool
  nolock : Bool
  unlock : Bool
  rerun_incomplete : Bool
  ignore_incomplete : Bool
  list_version_changes : Bool
  list_code_changes : Bool
  list_input_changes : Bool
  list_params_changes : Bool
  summary : Bool
  detailed_summary : Bool
  print_compilation : Bool
  verbose : Bool
  debug : Bool
  notemp : Bool
  keep_remote : Bool
  greediness : Option ℚ
  latency_wait : Int
  benchmark_repeats : Int
  keep_target_files : Bool
  deriving DecidableEq, Repr

/-- The keyword arguments of the `workflow.execute(...)` call
(source lines 141-175), one field per keyword. -/
structure ExecuteArgs where
  targets : List String
  dryrun : Bool
  touch : Bool
  forceall : Bool
  forcerun : Finset String
  until_ : List String
  omit_from : List String
  quiet : Bool
  keepgoing : Bool
  printshellcmds : Bool
  printreason : Bool
  printrulegraph : Bool
  printd3dag : Bool
  ignore_ambiguity : Bool
  stats : Option String
  force_incomplete : Bool
  ignore_incomplete : Bool
  list_version_changes : Bool
  list_code_changes : Bool
  list_input_changes : Bool
  list_params_changes : Bool
  summary : Bool
  latency_wait : Int
  benchmark_repeats : Int
  wait_for_files : Option (List String)
  detailed_summary : Bool
  nolock : Bool
  unlock : Bool
  notemp : Bool
  keep_remote_local : Bool
  keep_target_files : Bool
  updated_files : List String
  resources : List (String × Int)
  deriving DecidableEq

/-- The external snakemake engine and Python standard library, as opaque
oracle functions.  `parseFn` models `snakemake.parser.parse(path)[0]` and
`loadConfigfileFn` models `load_configfile(path)`, both applied to the
content of the file at `path` (the shim always writes the file first, so
the content is known). -/
structure Engine where
  shlexSplitFn : String → List String
  parseArgsFn : List String → Args
  parseResourcesFn : Args → List (String × Int)
  newWorkflowFn : String → Workflow
  executeFn : Workflow → ExecuteArgs → Bool
  includeFn : Workflow → String → Bool → Workflow
  parseFn : String → String
  loadConfigfileFn : String → List (String × String)

/-- The mutable state of the `SnakemakeMagic` class plus the global
`snakemake.workflow.config` dict (an association list, later keys read
first) and the OS temp-name allocator counter. -/
structure MagicState where
  workflow : Option Workflow
  tempfilesRoot : Option String
  tempfilesCells : List String
  updatedRules : List String
  config : List (String × String)
  tempCounter : Nat
  deriving DecidableEq, Repr

/-- The name the OS temp-file allocator returns for its `n`-th call. -/
def tempName (n : Nat) : String := "/tmp/tmp" ++ Nat.repr n

/-- One observable action of the shim: a temp-file write or unlink, or a
call across the engine boundary.  Engine-method events carry the receiver
workflow so the arguments of the call are fully recorded. -/
inductive Event where
  | writeTemp (path : String) (content : String)
  | checkCall (w : Workflow)
  | executeCall (w : Workflow) (ea : ExecuteArgs)
  | includeCall (w : Workflow) (path : String) (overwriteFirstRule : Bool)
  | loadConfigCall (path : String)
  | configUpdate (loaded : List (String × String))
  | unlink (path : String)
  deriving DecidableEq

/-- Python `dict.update`: keys of `new` override keys of `old`, keys not
yet present are appended. -/
def dictUpdate (old new : List (String × String)) : List (String × String) :=
  old.filter (fun p => !(new.any (fun q => q.1 == p.1))) ++ new

/-- Model of `SnakemakeMagic.get_workflow` (source lines 51-67): if no workflow
exists, allocate a blank placeholder temp file, store it under the
`root` key, and construct the engine workflow on it; otherwise return the
stored handle unchanged. -/
def get_workflow (eng : Engine) (s : MagicState) : Workflow × MagicState :=
  match s.workflow with
  | some w => (w, s)
  | none =>
    let path := tempName s.tempCounter
    let w := eng.newWorkflowFn path
    (w, { s with
            workflow := some w
            tempfilesRoot := some path
            tempCounter := s.tempCounter + 1 })

/-- Split a character list at newline characters (Python
`str.split("\n")`); the accumulator holds the current line reversed. -/
def splitCharAux : List Char → List Char → List (List Char)
  | [], acc => [acc.reverse]
  | c :: cs, acc =>
    if c == '\n' then acc.reverse :: splitCharAux cs []
    else splitCharAux cs (c :: acc)

/-- Python `str.split("\n")`. -/
def splitLines (s : String) : List String :=
  (splitCharAux s.data []).map String.mk

/-- Model of `get_rule_names` (source lines 24-32), applied to the content of the
snakefile: run the engine parser, split its output into lines, and keep
the capture group of every line matching the rule regexp. -/
def get_rule_names (eng : Engine) (content : String) : List String :=
  (splitLines (eng.parseFn content)).filterMap ruleRexpMatch

/-- Model of `workflow._rules.pop(rule_name, None)` (source line 201): drop the key
`rn` from the rule table; absent keys are tolerated. -/
def popRule (w : Workflow) (rn : String) : Workflow :=
  { w with rules := w.rules.filter (fun r => r != rn) }

deriving instance DecidableEq for Except

/-- The outcome of the `snakemake` line magic: the raised exception or the
returned value, the event trace, and the state after the call. -/
structure SnakemakeOutcome where
  result : Except String Bool
  trace : List Event
  state : MagicState
  deriving DecidableEq

/-- The outcome of a cell magic: the returned value (the rule-count
message for `sinclude`, nothing for `sconfig`), the event trace, and the
state after the call. -/
structure CellOutcome where
  result : Option String
  trace : List Event
  state : MagicState
  deriving DecidableEq

/-- The keyword arguments of the `execute` call as a function of the
parsed command-line arguments, the `parse_resources` result and the
`updated_rules` list at the time of the call (source lines 83-137 compute
the locals, lines 141-175 pass them).  Two deliberate deviations of the
code from a plain field copy are reproduced here: `forcerun` follows the
Python expression `set(args.forcerun if args.forcerun is not None else
[] + self.updated_rules)` — in which `+` binds tighter than
`... if ... else ...`, so `updated_rules` is only used when
`--forcerun` was absent — and `nolock` is `True` always, because line 137
overwrites `lock` with `False` before line 168 passes `not lock`. -/
def argsToExec (args : Args) (resources : List (String × Int))
    (updatedRules : List String) : ExecuteArgs :=
  { targets := args.target
    dryrun := args.dryrun
    touch := args.touch
    forceall := args.forceall
    forcerun := (match args.forcerun with
      | some fr => fr
      | none => [] ++ updatedRules).toFinset
    until_ := args.until_
    omit_from := args.omit_from
    quiet := args.quiet
    keepgoing := args.keep_going
    printshellcmds := args.printshellcmds
    printreason := args.reason
    printrulegraph := args.rulegraph
    printd3dag := args.d3dag
    ignore_ambiguity := args.allow_ambiguity
    stats := args.stats
    force_incomplete := args.rerun_incomplete
    ignore_incomplete := args.ignore_incomplete
    list_version_changes := args.list_version_changes
    list_code_changes := args.list_code_changes
    list_input_changes := args.list_input_changes
    list_params_changes := args.list_params_changes
    summary := args.summary
    latency_wait := args.latency_wait
    benchmark_repeats := args.benchmark_repeats
    wait_for_files := none
    detailed_summary := args.detailed_summary
    nolock := true
    unlock := args.unlock
    notemp := args.notemp
    keep_remote_local := args.keep_remote
    keep_target_files := args.keep_target_files
    updated_files := []
    resources := resources }

/-- The guard of source lines 125-130: an explicit `--greediness` value
outside `[0, 1]` makes the magic log an error and return `False` before
any engine call. -/
def greedinessBad (args : Args) : Bool :=
  match args.greediness with
  | some g => !(decide (0 ≤ g ∧ g ≤ 1))
  | none => false

/-- Source lines 78-79: shlex-split the argument line and run the
engine's command-line parser on the token list. -/
def parsedArgs (eng : Engine) (line : String) : Args :=
  eng.parseArgsFn (eng.shlexSplitFn line)

/-- Model of `SnakemakeMagic.snakemake` (source lines 69-180): raise when no
workflow exists yet; otherwise shlex-split the line, run the engine's
argument parser on the tokens, early-return `False` on an out-of-range
`--greediness`, then call `workflow.check()` and `workflow.execute(...)`
and return the success flag, clearing `updated_rules` on success.
The unused Python locals (`standalone`, the defaulted `greediness`
value, `nocolor`, `print_compilation`, `verbose`, `debug`) have no
observable effect and are not bound here. -/
def snakemake (eng : Engine) (s : MagicState) (line : String) :
    SnakemakeOutcome :=
  match s.workflow with
  | none => ⟨Except.error "Workflow has no data!", [], s⟩
  | some _ =>
    let args := parsedArgs eng line
    let resources := eng.parseResourcesFn args
    if greedinessBad args then
      ⟨Except.ok false, [], s⟩
    else
      let ws := get_workflow eng s
      let workflow := ws.1
      let s1 := ws.2
      let ea := argsToExec args resources s.updatedRules
      let success := eng.executeFn workflow ea
      let s2 := if success then { s1 with updatedRules := [] } else s1
      ⟨Except.ok success,
       [Event.checkCall workflow, Event.executeCall workflow ea], s2⟩

/-- Model of `SnakemakeMagic.sinclude` (source lines 182-210): ensure a workflow
exists, stage the cell into a fresh temp file (recorded under the `cells`
key), compute `overwrite_first_rule` from whether the rule table is empty,
pop every rule name found in the staged file from the rule table while
appending it to `updated_rules`, call `workflow.include` on the staged
file, unlink it, and report the new rule count. -/
def sinclude (eng : Engine) (s : MagicState) (cell : String) :
    CellOutcome :=
  let ws := get_workflow eng s
  let workflow := ws.1
  let s1 := ws.2
  let path := tempName s1.tempCounter
  let s2 := { s1 with
                tempfilesCells := s1.tempfilesCells ++ [path]
                tempCounter := s1.tempCounter + 1 }
  let overwriteFirstRule := workflow.rules.length == 0
  let ruleNames := get_rule_names eng cell
  let wu := ruleNames.foldl
    (fun (p : Workflow × List String) rn => (popRule p.1 rn, p.2 ++ [rn]))
    (workflow, s2.updatedRules)
  let workflow2 := wu.1
  let workflow3 := eng.includeFn workflow2 path overwriteFirstRule
  let s3 := { s2 with workflow := some workflow3, updatedRules := wu.2 }
  ⟨some ("Workflow now has " ++ Nat.repr workflow3.rules.length
          ++ " rules"),
   [Event.writeTemp path cell,
    Event.includeCall workflow2 path overwriteFirstRule,
    Event.unlink path],
   s3⟩

/-- Model of `SnakemakeMagic.sconfig` (source lines 212-225): ensure a workflow
exists, stage the cell into a fresh temp file (not recorded in the
tempfile bookkeeping), load a config mapping from it, merge the mapping
into the global config via `update`, and unlink the file. -/
def sconfig (eng : Engine) (s : MagicState) (cell : String) :
    CellOutcome :=
  let ws := get_workflow eng s
  let s1 := ws.2
  let path := tempName s1.tempCounter
  let s2 := { s1 with tempCounter := s1.tempCounter + 1 }
  let loaded := eng.loadConfigfileFn cell
  let s3 := { s2 with config := dictUpdate s2.config loaded }
  ⟨none,
   [Event.writeTemp path cell,
    Event.loadConfigCall path,
    Event.configUpdate loaded,
    Event.unlink path],
   s3⟩

/-- An argparse result with every option at its default. -/
def defaultArgs : Args :=
  { target := []
    dryrun := false
    printshellcmds := false
    reason := false
    rulegraph := false
    d3dag := false
    touch := false
    forceall := false
    forcerun := none
    prioritize := none
    until_ := []
    omit_from := []
    stats := none
    nocolor := false
    quiet := false
    keep_going := false
    allow_ambiguity := false
    nolock := false
    unlock := false
    rerun_incomplete := false
    ignore_incomplete := false
    list_version_changes := false
    list_code_changes := false
    list_input_changes := false
    list_params_changes := false
    summary := false
    detailed_summary := false
    print_compilation := false
    verbose := false
    debug := false
    notemp := false
    keep_remote := false
    greediness := none
    latency_wait := 5
    benchmark_repeats := 1
    keep_target_files := false }

/-- A concrete engine for evaluating the model on sample inputs: a
whitespace tokenizer, a parser returning the defaults, an identity
snakefile parser and an execute call that always succeeds. -/
def testEngine : Engine :=
  { shlexSplitFn := fun l => if l = "" then [] else [l]
    parseArgsFn := fun _ => defaultArgs
    parseResourcesFn := fun _ => []
    newWorkflowFn := fun p => ⟨p, []⟩
    executeFn := fun _ _ => true
    includeFn := fun w p _ => ⟨w.snakefile, w.rules ++ [p]⟩
    parseFn := fun c => c
    loadConfigfileFn := fun _ => [("k", "v")] }

/-- The state before any magic has run. -/
def emptyState : MagicState :=
  { workflow := none
    tempfilesRoot := none
    tempfilesCells := []
    updatedRules := []
    config := []
    tempCounter := 0 }

/-- A sample initialized workflow handle. -/
def wf0 : Workflow := ⟨"/tmp/tmp0", []⟩

/-- A state in which a session exists and the rule `b` was redefined
since the last successful run. -/
def stateWithWorkflow : MagicState :=
  { workflow := some wf0
    tempfilesRoot := some "/tmp/tmp0"
    tempfilesCells := []
    updatedRules := ["b"]
    config := []
    tempCounter := 1 }

/-- An engine whose argument parser reports `--forcerun a` on every
line. -/
def engineForcerunA : Engine :=
  { testEngine with parseArgsFn := fun _ => { defaultArgs with forcerun := some ["a"] } }


/-- The keyword record the magic hands to `execute` for a given line and
state: `argsToExec` applied to the parsed arguments, the parsed
resources, and the `updated_rules` list. -/
def eaOf (eng : Engine) (s : MagicState) (line : String) : ExecuteArgs :=
  argsToExec (parsedArgs eng line)
    (eng.parseResourcesFn (parsedArgs eng line)) s.updatedRules

/-- Unfolding `snakemake` when no session exists. -/
theorem snakemake_none (eng : Engine) (s : MagicState) (line : String)
    (hw : s.workflow = none) :
    snakemake eng s line = ⟨Except.error "Workflow has no data!", [], s⟩ := by
  simp [snakemake, hw]

/-- Unfolding `snakemake` when the session exists and the greediness
guard rejects the arguments. -/
theorem snakemake_greedy (eng : Engine) (s : MagicState) (line : String)
    (w0 : Workflow) (hw : s.workflow = some w0)
    (hg : greedinessBad (parsedArgs eng line) = true) :
    snakemake eng s line = ⟨Except.ok false, [], s⟩ := by
  simp [snakemake, hw, hg]

/-- Unfolding `snakemake` on the path that reaches `check` and
`execute`. -/
theorem snakemake_execute_eq (eng : Engine) (s : MagicState) (line : String)
    (w0 : Workflow) (hw : s.workflow = some w0)
    (hg : greedinessBad (parsedArgs eng line) = false) :
    snakemake eng s line =
      ⟨Except.ok (eng.executeFn w0 (eaOf eng s line)),
       [Event.checkCall w0, Event.executeCall w0 (eaOf eng s line)],
       if eng.executeFn w0 (eaOf eng s line)
         then { s with updatedRules := [] } else s⟩ := by
  simp [snakemake, hw, hg, get_workflow, eaOf]

/-- Characterization of a `snakemake` call that reaches `execute`: the
session must exist and be the receiver, the keyword record is
`argsToExec` of the parsed arguments, the returned value is the engine's
success flag, and `updated_rules` is cleared exactly on success. -/
theorem snakemake_execute_characterization (eng : Engine) (s : MagicState)
    (line : String) (w : Workflow) (ea : ExecuteArgs)
    (h : Event.executeCall w ea ∈ (snakemake eng s line).trace) :
    s.workflow = some w ∧
    ea = eaOf eng s line ∧
    (snakemake eng s line).result = Except.ok (eng.executeFn w ea) ∧
    (snakemake eng s line).state =
      (if eng.executeFn w ea then { s with updatedRules := [] } else s) := by
  rcases hw : s.workflow with _ | w0
  · rw [snakemake_none eng s line hw] at h
    simp at h
  · rcases hg : greedinessBad (parsedArgs eng line) with _ | _
    · rw [snakemake_execute_eq eng s line w0 hw hg] at h ⊢
      simp only [List.mem_cons, List.not_mem_nil, or_false] at h
      rcases h with h | h
      · exact absurd h (by simp)
      · rw [Event.executeCall.injEq] at h
        obtain ⟨h1, rfl⟩ := h
        subst h1
        exact ⟨rfl, rfl, rfl, by simp [hw]⟩
    · rw [snakemake_greedy eng s line w0 hw hg] at h
      simp at h

/-- The rule-removal loop of `sinclude` splits into the workflow part and
the bookkeeping part: the rule table is folded through `popRule` and the
rule names are appended to `updated_rules` in order. -/
theorem popFold_eq (l : List String) (w : Workflow) (u : List String) :
    l.foldl (fun (p : Workflow × List String) rn => (popRule p.1 rn, p.2 ++ [rn]))
        (w, u)
      = (l.foldl popRule w, u ++ l) := by
  induction l generalizing w u with
  | nil => simp
  | cons rn t ih => simp [ih]

/-- Popping a rule removes it from the rule table. -/
theorem popRule_not_mem (w : Workflow) (rn : String) :
    rn ∉ (popRule w rn).rules := by
  simp [popRule, List.mem_filter]

/-- Popping never re-adds an absent rule. -/
theorem popRule_preserves_not_mem (w : Workflow) (rn x : String)
    (h : x ∉ w.rules) : x ∉ (popRule w rn).rules := by
  simp only [popRule, List.mem_filter]
  exact fun hx => absurd hx.1 h

/-- A rule absent from the table stays absent through the whole removal
loop. -/
theorem popFold_preserves_not_mem (l : List String) (w : Workflow)
    (x : String) (h : x ∉ w.rules) : x ∉ (l.foldl popRule w).rules := by
  induction l generalizing w with
  | nil => exact h
  | cons rn t ih => exact ih (popRule w rn) (popRule_preserves_not_mem w rn x h)

/-- Every name in the removal loop's input is absent from the resulting
rule table. -/
theorem popFold_not_mem (l : List String) (w : Workflow) (x : String)
    (hx : x ∈ l) : x ∉ (l.foldl popRule w).rules := by
  induction l generalizing w with
  | nil => cases hx
  | cons rn t ih =>
    rcases List.mem_cons.mp hx with rfl | hmem
    · exact popFold_preserves_not_mem t (popRule w x) x (popRule_not_mem w x)
    · exact ih (popRule w rn) hmem

/-- Lemma: `get_workflow` never touches the `updated_rules` bookkeeping. -/
theorem get_workflow_updatedRules (eng : Engine) (s : MagicState) :
    ((get_workflow eng s).2).updatedRules = s.updatedRules := by
  cases h : s.workflow <;> simp [get_workflow, h]

/-- Lemma: `get_workflow` never touches the global config. -/
theorem get_workflow_config (eng : Engine) (s : MagicState) :
    ((get_workflow eng s).2).config = s.config := by
  cases h : s.workflow <;> simp [get_workflow, h]

/-- Full unfolding of `sinclude`: the staged path is the next allocator
name, the trace is write / include / unlink, and the new state records
the path, the appended rule names and the post-include workflow. -/
theorem sinclude_eq (eng : Engine) (s : MagicState) (cell : String) :
    sinclude eng s cell =
      ⟨some ("Workflow now has "
          ++ Nat.repr (eng.includeFn
                ((get_rule_names eng cell).foldl popRule (get_workflow eng s).1)
                (tempName ((get_workflow eng s).2).tempCounter)
                ((get_workflow eng s).1.rules.length == 0)).rules.length
          ++ " rules"),
       [Event.writeTemp (tempName ((get_workflow eng s).2).tempCounter) cell,
        Event.includeCall
          ((get_rule_names eng cell).foldl popRule (get_workflow eng s).1)
          (tempName ((get_workflow eng s).2).tempCounter)
          ((get_workflow eng s).1.rules.length == 0),
        Event.unlink (tempName ((get_workflow eng s).2).tempCounter)],
       { (get_workflow eng s).2 with
           workflow := some (eng.includeFn
             ((get_rule_names eng cell).foldl popRule (get_workflow eng s).1)
             (tempName ((get_workflow eng s).2).tempCounter)
             ((get_workflow eng s).1.rules.length == 0))
           tempfilesCells := ((get_workflow eng s).2).tempfilesCells
             ++ [tempName ((get_workflow eng s).2).tempCounter]
           updatedRules := ((get_workflow eng s).2).updatedRules
             ++ get_rule_names eng cell
           tempCounter := ((get_workflow eng s).2).tempCounter + 1 }⟩ := by
  simp [sinclude, popFold_eq]

/-- A cell whose parse output declares exactly the rule `r1` (written
without literal apostrophes via `squote`). -/
def cellR1 : String :=
  String.mk ("@workflow.rule(name=".data ++ [squote] ++ "r1".data
    ++ [squote] ++ ", lineno=1)".data)

/-- A workflow already holding the rule `r1` and one other rule. -/
def wfR1 : Workflow := ⟨"/tmp/tmp0", ["r1", "other"]⟩

/-- A state whose session holds `wfR1` and has no pending bookkeeping. -/
def stateR1 : MagicState :=
  { workflow := some wfR1
    tempfilesRoot := some "/tmp/tmp0"
    tempfilesCells := []
    updatedRules := []
    config := []
    tempCounter := 1 }

/-- An engine whose `execute` always reports failure. -/
def engineFail : Engine := { testEngine with executeFn := fun _ _ => false }

/-- C1.  The claim says the force-run set passed to `execute` contains
both every `--forcerun` rule name and every name in the shim's
`updated_rules` list.  The code (line 93) disagrees: in
`set(args.forcerun if args.forcerun is not None else [] + self.updated_rules)`
the `+` binds inside the `else` branch, so whenever `--forcerun` is given,
`updated_rules` is dropped.  Here, with `--forcerun a` parsed and `b` in
`updated_rules`, the `execute` call is made with force-run set `{a}`:
`b` is missing, although the surrounding code (the bookkeeping comment on
line 134 and the clearing of `updated_rules` on success) shows the intent
the claim states. -/
theorem snakemake_forcerun_drops_updated_rules :
    "b" ∈ stateWithWorkflow.updatedRules ∧
    Event.executeCall wf0 (eaOf engineForcerunA stateWithWorkflow "--forcerun a")
      ∈ (snakemake engineForcerunA stateWithWorkflow "--forcerun a").trace ∧
    "a" ∈ (eaOf engineForcerunA stateWithWorkflow "--forcerun a").forcerun ∧
    "b" ∉ (eaOf engineForcerunA stateWithWorkflow "--forcerun a").forcerun := by
  decide

/-- C2.  If the stored workflow handle is `None`, the `snakemake` line
magic raises (`Workflow has no data!`), leaves the state untouched, and
makes no engine call at all (empty trace: in particular neither `check`
nor `execute`). -/
theorem snakemake_raises_without_workflow (eng : Engine) (s : MagicState)
    (line : String) (h : s.workflow = none) :
    (snakemake eng s line).result = Except.error "Workflow has no data!" ∧
    (snakemake eng s line).trace = [] ∧
    (snakemake eng s line).state = s := by
  rw [snakemake_none eng s line h]
  exact ⟨rfl, rfl, rfl⟩

/-- Witness for C2 at a concrete uninitialized state. -/
theorem snakemake_raises_without_workflow_witness :
    (snakemake testEngine emptyState "sometarget").result
        = Except.error "Workflow has no data!" ∧
    (snakemake testEngine emptyState "sometarget").trace = [] ∧
    (snakemake testEngine emptyState "sometarget").state = emptyState :=
  snakemake_raises_without_workflow testEngine emptyState "sometarget" rfl

/-- C3.  Whenever the line magic actually calls `execute`, the value the
magic returns is exactly the success flag `execute` returned. -/
theorem snakemake_returns_execute_result (eng : Engine) (s : MagicState)
    (line : String) (w : Workflow) (ea : ExecuteArgs)
    (h : Event.executeCall w ea ∈ (snakemake eng s line).trace) :
    (snakemake eng s line).result = Except.ok (eng.executeFn w ea) :=
  (snakemake_execute_characterization eng s line w ea h).2.2.1

/-- Witness for C3 at a concrete engine and state. -/
theorem snakemake_returns_execute_result_witness :
    (snakemake testEngine stateWithWorkflow "target1").result
      = Except.ok (testEngine.executeFn wf0
          (eaOf testEngine stateWithWorkflow "target1")) :=
  snakemake_returns_execute_result testEngine stateWithWorkflow "target1"
    wf0 (eaOf testEngine stateWithWorkflow "target1") (by decide)

/-- C4.  Every `execute` call the line magic makes passes `nolock=True`,
whatever the parsed `--nolock` flag was: line 137 overwrites `lock` with
`False` before line 168 passes `not lock`. -/
theorem snakemake_always_nolock (eng : Engine) (s : MagicState)
    (line : String) (w : Workflow) (ea : ExecuteArgs)
    (h : Event.executeCall w ea ∈ (snakemake eng s line).trace) :
    ea.nolock = true := by
  rw [(snakemake_execute_characterization eng s line w ea h).2.1]
  rfl

/-- Witness for C4: the default arguments have no `--nolock`, yet the
call is made with `nolock=True`. -/
theorem snakemake_always_nolock_witness :
    (eaOf testEngine stateWithWorkflow "target1").nolock = true :=
  snakemake_always_nolock testEngine stateWithWorkflow "target1" wf0
    (eaOf testEngine stateWithWorkflow "target1") (by decide)

/-- C9.  Every `execute` option is derived from the result of running the
engine's command-line parser on the shlex-split argument line (plus the
shim's own `updated_rules` for the force-run set and the fixed
overrides recorded in `argsToExec`). -/
theorem snakemake_options_from_parsed_args (eng : Engine) (s : MagicState)
    (line : String) (w : Workflow) (ea : ExecuteArgs)
    (h : Event.executeCall w ea ∈ (snakemake eng s line).trace) :
    ea = argsToExec (eng.parseArgsFn (eng.shlexSplitFn line))
          (eng.parseResourcesFn (eng.parseArgsFn (eng.shlexSplitFn line)))
          s.updatedRules :=
  (snakemake_execute_characterization eng s line w ea h).2.1

/-- Witness for C9 at a concrete engine and state. -/
theorem snakemake_options_from_parsed_args_witness :
    eaOf testEngine stateWithWorkflow "target1"
      = argsToExec (testEngine.parseArgsFn (testEngine.shlexSplitFn "target1"))
          (testEngine.parseResourcesFn
            (testEngine.parseArgsFn (testEngine.shlexSplitFn "target1")))
          stateWithWorkflow.updatedRules :=
  snakemake_options_from_parsed_args testEngine stateWithWorkflow "target1"
    wf0 (eaOf testEngine stateWithWorkflow "target1") (by decide)

/-- C10.  After an `execute` call, the `updated_rules` list is emptied
when `execute` reported success, and the whole state (so in particular
`updated_rules`) is unchanged when it reported failure. -/
theorem snakemake_clears_updated_rules_on_success (eng : Engine)
    (s : MagicState) (line : String) (w : Workflow) (ea : ExecuteArgs)
    (h : Event.executeCall w ea ∈ (snakemake eng s line).trace) :
    (eng.executeFn w ea = true →
      (snakemake eng s line).state.updatedRules = []) ∧
    (eng.executeFn w ea = false →
      (snakemake eng s line).state = s) := by
  have hst := (snakemake_execute_characterization eng s line w ea h).2.2.2
  constructor
  · intro hs
    rw [hst, if_pos hs]
  · intro hs
    rw [hst, if_neg]
    simp [hs]

/-- Witness for C10: a succeeding engine clears the bookkeeping, a
failing engine leaves the state untouched. -/
theorem snakemake_clears_updated_rules_on_success_witness :
    (snakemake testEngine stateWithWorkflow "target1").state.updatedRules = [] ∧
    (snakemake engineFail stateWithWorkflow "target1").state
      = stateWithWorkflow :=
  ⟨(snakemake_clears_updated_rules_on_success testEngine stateWithWorkflow
      "target1" wf0 (eaOf testEngine stateWithWorkflow "target1")
      (by decide)).1 (by decide),
   (snakemake_clears_updated_rules_on_success engineFail stateWithWorkflow
      "target1" wf0 (eaOf engineFail stateWithWorkflow "target1")
      (by decide)).2 (by decide)⟩

/-- C5.  `sinclude` writes the cell text verbatim into the freshly
allocated temp file (the allocator's next name, never issued before) and
hands exactly that path to the engine's `include` call, whose
overwrite-first-rule flag is true exactly when the session's rule table
was empty before the call. -/
theorem sinclude_stages_cell (eng : Engine) (s : MagicState) (cell : String) :
    ∃ path wPopped ofr,
      (sinclude eng s cell).trace =
        [Event.writeTemp path cell,
         Event.includeCall wPopped path ofr,
         Event.unlink path] ∧
      path = tempName ((get_workflow eng s).2).tempCounter ∧
      (ofr = true ↔ (get_workflow eng s).1.rules = []) := by
  refine ⟨tempName ((get_workflow eng s).2).tempCounter,
    (get_rule_names eng cell).foldl popRule (get_workflow eng s).1,
    ((get_workflow eng s).1.rules.length == 0), ?_, rfl, ?_⟩
  · rw [sinclude_eq]
  · simp [List.length_eq_zero]

/-- C6.  Before `sinclude` calls `include`, every rule name parsed from
the staged cell has been removed from the rule table handed to `include`
(whether or not the name was present), and all those names have been
appended to `updated_rules`. -/
theorem sinclude_removes_and_appends (eng : Engine) (s : MagicState)
    (cell : String) :
    (∀ w2 p f, Event.includeCall w2 p f ∈ (sinclude eng s cell).trace →
      ∀ rn ∈ get_rule_names eng cell, rn ∉ w2.rules) ∧
    (sinclude eng s cell).state.updatedRules
      = s.updatedRules ++ get_rule_names eng cell := by
  constructor
  · intro w2 p f hmem rn hrn
    rw [sinclude_eq] at hmem
    simp only [List.mem_cons, List.not_mem_nil, or_false] at hmem
    rcases hmem with hmem | hmem | hmem
    · exact absurd hmem (by simp)
    · rw [Event.includeCall.injEq] at hmem
      obtain ⟨rfl, -, -⟩ := hmem
      exact popFold_not_mem _ _ rn hrn
    · exact absurd hmem (by simp)
  · rw [sinclude_eq]
    simp [get_workflow_updatedRules]

/-- Witness for C6: redefining `r1` in a session that already has `r1`
removes it from the table passed to `include` and appends it to the
bookkeeping. -/
theorem sinclude_removes_and_appends_witness :
    "r1" ∉ ((get_rule_names testEngine cellR1).foldl popRule wfR1).rules ∧
    (sinclude testEngine stateR1 cellR1).state.updatedRules = ["r1"] :=
  ⟨(sinclude_removes_and_appends testEngine stateR1 cellR1).1
      ((get_rule_names testEngine cellR1).foldl popRule
        (get_workflow testEngine stateR1).1)
      (tempName 1)
      ((get_workflow testEngine stateR1).1.rules.length == 0)
      (by decide) "r1" (by decide),
   by
     rw [(sinclude_removes_and_appends testEngine stateR1 cellR1).2]
     decide⟩

/-- C7.  The session is constructed lazily and at most once: an existing
handle is returned as-is with the state untouched, a missing one is
constructed on the placeholder path `tempName s.tempCounter` (recorded
under the `root` tempfile key, bumping the allocator), and calling
`get_workflow` twice is the same as calling it once. -/
theorem get_workflow_lazy_once (eng : Engine) (s : MagicState) :
    get_workflow eng ((get_workflow eng s).2) = get_workflow eng s ∧
    ((get_workflow eng s).2).workflow = some (get_workflow eng s).1 ∧
    (∀ w, s.workflow = some w → get_workflow eng s = (w, s)) ∧
    (s.workflow = none →
      (get_workflow eng s).1 = eng.newWorkflowFn (tempName s.tempCounter) ∧
      ((get_workflow eng s).2).tempfilesRoot
        = some (tempName s.tempCounter) ∧
      ((get_workflow eng s).2).tempCounter = s.tempCounter + 1) := by
  cases h : s.workflow <;>
    refine ⟨?_, ?_, ?_, ?_⟩ <;> simp [get_workflow, h]

/-- Witness for C7: a second call on the state produced by the first is a
no-op, and construction happens on the placeholder temp name. -/
theorem get_workflow_lazy_once_witness :
    get_workflow testEngine ((get_workflow testEngine emptyState).2)
      = get_workflow testEngine emptyState ∧
    get_workflow testEngine stateWithWorkflow = (wf0, stateWithWorkflow) ∧
    (get_workflow testEngine emptyState).1
      = testEngine.newWorkflowFn (tempName 0) :=
  ⟨(get_workflow_lazy_once testEngine emptyState).1,
   (get_workflow_lazy_once testEngine stateWithWorkflow).2.2.1 wf0 rfl,
   ((get_workflow_lazy_once testEngine emptyState).2.2.2 rfl).1⟩

/-- C8.  `sconfig` writes the cell text to a temp file, loads a config
mapping from that file, merges it into the global config via
`dict.update`, and finally deletes the file — in that order. -/
theorem sconfig_stages_loads_merges_unlinks (eng : Engine) (s : MagicState)
    (cell : String) :
    (sconfig eng s cell).trace =
      [Event.writeTemp (tempName ((get_workflow eng s).2).tempCounter) cell,
       Event.loadConfigCall (tempName ((get_workflow eng s).2).tempCounter),
       Event.configUpdate (eng.loadConfigfileFn cell),
       Event.unlink (tempName ((get_workflow eng s).2).tempCounter)] ∧
    (sconfig eng s cell).state.config
      = dictUpdate s.config (eng.loadConfigfileFn cell) := by
  constructor
  · simp [sconfig]
  · simp [sconfig, get_workflow_config]
